import Mathlib

/-!
Verification of the natural-language PDF-edit instruction interpreter and
related utilities (nano-pdf.py, edit_pdf.py, voice_call.py).

Strings are modelled as lists of characters (`Str`).  Python's `str.lower`,
`str.strip`, `int(...)`, substring containment (`in`) and the four concrete
regular expressions used by the scripts are embedded as executable functions.
The regex embeddings follow Python's backtracking search order for these
specific patterns: leftmost starting position first; at a fixed position a
depth-first search over alternatives where a greedy `?` prefers consuming and
a lazy `+?` prefers the shortest capture.  `$` matches at the end of the
string or just before one final newline, as in Python without re.MULTILINE.
Character handling is ASCII (the scripts' patterns and keywords are ASCII).
-/

abbrev Str := List Char

/-- Convert a Lean string literal to the `Str` model. -/
def str (s : String) : Str := s.toList

/-- The single-quote character. -/
def sqCh : Char := Char.ofNat 39

/-- The double-quote character. -/
def dqCh : Char := Char.ofNat 34

/-- The newline character. -/
def nlCh : Char := Char.ofNat 10

/-- Membership in the regex character class `['\x22]` (single or double quote). -/
def isQuoteCh (c : Char) : Bool := c = sqCh || c = dqCh

/-- ASCII lowering of one character, as Python `str.lower` acts on ASCII. -/
def pyLowerCh (c : Char) : Char :=
  if 65 ≤ c.toNat ∧ c.toNat ≤ 90 then Char.ofNat (c.toNat + 32) else c

/-- Python `str.lower` (ASCII fragment). -/
def pyLower (s : Str) : Str := s.map pyLowerCh

/-- Python whitespace characters (the set matched by `\s` and stripped by
`str.strip()` on ASCII input): space, tab, newline, carriage return,
vertical tab, form feed. -/
def isPySpace (c : Char) : Bool :=
  c.toNat = 32 || c.toNat = 9 || c.toNat = 10 || c.toNat = 13 ||
  c.toNat = 11 || c.toNat = 12

/-- Python `str.strip()` with no argument: remove leading and trailing
whitespace. -/
def pyStrip (s : Str) : Str :=
  ((s.dropWhile isPySpace).reverse.dropWhile isPySpace).reverse

/-- Does `s` start with the pattern `p`? -/
def leadsWith : Str → Str → Bool
  | [], _ => true
  | _ :: _, [] => false
  | p :: ps, c :: cs => p = c && leadsWith ps cs

/-- Python substring containment `pat in s`. -/
def containsSub : Str → Str → Bool
  | [], pat => leadsWith pat []
  | c :: cs, pat => leadsWith pat (c :: cs) || containsSub cs pat

/-- Consume the literal `lit` from the front of `s`, returning the rest. -/
def dropLit : Str → Str → Option Str
  | [], s => some s
  | _ :: _, [] => none
  | p :: ps, c :: cs => if p = c then dropLit ps cs else none

/-- Consume one character of the class `['\x22]`. -/
def dropQuote : Str → Option Str
  | [] => none
  | c :: cs => if isQuoteCh c then some cs else none

/-- Split off the maximal leading run of non-quote characters
(what a greedy `[^'\x22]+` matches when followed by a quote class). -/
def spanNQ : Str → Str × Str
  | [] => ([], [])
  | c :: cs =>
    if isQuoteCh c then ([], c :: cs)
    else
      let r := spanNQ cs
      (c :: r.1, r.2)

/-- Python `$` (no MULTILINE): end of input, or just before one final
newline. -/
def atDollar : Str → Bool
  | [] => true
  | [c] => c = nlCh
  | _ => false

/-!
Pattern 1 (nano-pdf.py line 93, applied to the lowercased instruction):
  replace ['\x22]([^'\x22]+)['\x22] with ['\x22]([^'\x22]+)['\x22]
Both groups are greedy runs of non-quote characters followed by a quote
class, so matching at a fixed position is deterministic: each group is
forced to the maximal non-quote run.
-/

/-- Match pattern 1 anchored at the current position. -/
def r1At (s : Str) : Option (Str × Str) :=
  match dropLit (str "replace ") s with
  | none => none
  | some s1 =>
    match dropQuote s1 with
    | none => none
    | some s2 =>
      let a := (spanNQ s2).1
      if a = [] then none else
      match dropQuote (spanNQ s2).2 with
      | none => none
      | some s4 =>
        match dropLit (str " with ") s4 with
        | none => none
        | some s5 =>
          match dropQuote s5 with
          | none => none
          | some s6 =>
            let b := (spanNQ s6).1
            if b = [] then none else
            match dropQuote (spanNQ s6).2 with
            | none => none
            | some _ => some (a, b)

/-- `re.search` for pattern 1: try each start position left to right. -/
def r1Search : Str → Option (Str × Str)
  | [] => none
  | c :: cs =>
    match r1At (c :: cs) with
    | some r => some r
    | none => r1Search cs

/-!
Pattern 2 (nano-pdf.py line 107, applied to the lowercased instruction):
  change ['\x22]?([^'\x22]+?)['\x22]? to ['\x22]?([^'\x22]+?)['\x22]?$
Lazy groups and optional quotes require genuine backtracking; the
functions below implement the engine's depth-first preference order.
-/

/-- Tail of pattern 2 after both groups: optional closing quote (greedy),
then `$`.  Returns the captures on success. -/
def r2End (g1 g2 : Str) (rest : Str) : Option (Str × Str) :=
  (match dropQuote rest with
   | some r => if atDollar r then some (g1, g2) else none
   | none => none).orElse
  (fun _ => if atDollar rest then some (g1, g2) else none)

/-- Lazy extension of group 2: try finishing with the current capture
before consuming one more non-quote character. -/
def r2G2Go (g1 acc : Str) : Str → Option (Str × Str)
  | [] => r2End g1 acc.reverse []
  | c :: cs =>
    match r2End g1 acc.reverse (c :: cs) with
    | some r => some r
    | none => if isQuoteCh c then none else r2G2Go g1 (c :: acc) cs

/-- Group 2 of pattern 2: lazy, at least one non-quote character. -/
def r2G2 (g1 : Str) : Str → Option (Str × Str)
  | [] => none
  | c :: cs => if isQuoteCh c then none else r2G2Go g1 [c] cs

/-- After the literal ` to `: optional opening quote (greedy), then
group 2. -/
def r2AfterTo (g1 : Str) (rest : Str) : Option (Str × Str) :=
  (match dropQuote rest with
   | some r => r2G2 g1 r
   | none => none).orElse (fun _ => r2G2 g1 rest)

/-- After group 1: optional closing quote (greedy), then the literal
` to `, then the rest of the pattern. -/
def r2AfterG1 (g1 : Str) (rest : Str) : Option (Str × Str) :=
  (match dropQuote rest with
   | some r =>
     match dropLit (str " to ") r with
     | some r2 => r2AfterTo g1 r2
     | none => none
   | none => none).orElse
  (fun _ =>
    match dropLit (str " to ") rest with
    | some r2 => r2AfterTo g1 r2
    | none => none)

/-- Lazy extension of group 1. -/
def r2G1Go (acc : Str) : Str → Option (Str × Str)
  | [] => r2AfterG1 acc.reverse []
  | c :: cs =>
    match r2AfterG1 acc.reverse (c :: cs) with
    | some r => some r
    | none => if isQuoteCh c then none else r2G1Go (c :: acc) cs

/-- Group 1 of pattern 2: lazy, at least one non-quote character. -/
def r2G1 : Str → Option (Str × Str)
  | [] => none
  | c :: cs => if isQuoteCh c then none else r2G1Go [c] cs

/-- Match pattern 2 anchored at the current position. -/
def r2At (s : Str) : Option (Str × Str) :=
  match dropLit (str "change ") s with
  | none => none
  | some s1 =>
    (match dropQuote s1 with
     | some r => r2G1 r
     | none => none).orElse (fun _ => r2G1 s1)

/-- `re.search` for pattern 2. -/
def r2Search : Str → Option (Str × Str)
  | [] => none
  | c :: cs =>
    match r2At (c :: cs) with
    | some r => some r
    | none => r2Search cs

/-!
Pattern 3 (nano-pdf.py line 118, title fallback):
  change (?:the )?title to ['\x22]([^'\x22]+)['\x22]
Greedy group followed by a quote class: deterministic maximal run.
-/

/-- The part of pattern 3 from `title to ` on. -/
def rtTail (r : Str) : Option Str :=
  match dropLit (str "title to ") r with
  | none => none
  | some r1 =>
    match dropQuote r1 with
    | none => none
    | some r2 =>
      let x := (spanNQ r2).1
      if x = [] then none else
      match dropQuote (spanNQ r2).2 with
      | none => none
      | some _ => some x

/-- Match pattern 3 anchored at the current position.  `(?:the )?` is
greedy: prefer consuming `the `. -/
def rtAt (s : Str) : Option Str :=
  match dropLit (str "change ") s with
  | none => none
  | some s1 =>
    (match dropLit (str "the ") s1 with
     | some r => rtTail r
     | none => none).orElse (fun _ => rtTail s1)

/-- `re.search` for pattern 3. -/
def rtSearch : Str → Option Str
  | [] => none
  | c :: cs =>
    match rtAt (c :: cs) with
    | some r => some r
    | none => rtSearch cs

/-!
Pattern 4 (nano-pdf.py line 129, date update):
  update (?:the )?date to ['\x22]?([^'\x22]+?)['\x22]?\s*$
-/

/-- Tail of pattern 4 after the group: optional closing quote (greedy),
then `\s*$`, which succeeds exactly when the rest is all whitespace. -/
def rdEnd (g : Str) (rest : Str) : Option Str :=
  (match dropQuote rest with
   | some r => if r.all isPySpace then some g else none
   | none => none).orElse
  (fun _ => if rest.all isPySpace then some g else none)

/-- Lazy extension of pattern 4's group. -/
def rdGo (acc : Str) : Str → Option Str
  | [] => rdEnd acc.reverse []
  | c :: cs =>
    match rdEnd acc.reverse (c :: cs) with
    | some r => some r
    | none => if isQuoteCh c then none else rdGo (c :: acc) cs

/-- Pattern 4's group: lazy, at least one non-quote character. -/
def rdG : Str → Option Str
  | [] => none
  | c :: cs => if isQuoteCh c then none else rdGo [c] cs

/-- After `date to `: optional opening quote (greedy), then the group. -/
def rdOpen (r : Str) : Option Str :=
  (match dropQuote r with
   | some r1 => rdG r1
   | none => none).orElse (fun _ => rdG r)

/-- Match pattern 4 anchored at the current position. -/
def rdAt (s : Str) : Option Str :=
  match dropLit (str "update ") s with
  | none => none
  | some s1 =>
    (match dropLit (str "the ") s1 with
     | some r =>
       match dropLit (str "date to ") r with
       | some r1 => rdOpen r1
       | none => none
     | none => none).orElse
    (fun _ =>
      match dropLit (str "date to ") s1 with
      | some r1 => rdOpen r1
      | none => none)

/-- `re.search` for pattern 4. -/
def rdSearch : Str → Option Str
  | [] => none
  | c :: cs =>
    match rdAt (c :: cs) with
    | some r => some r
    | none => rdSearch cs

/-!
The instruction interpreter (nano-pdf.py, `edit_with_pymupdf`, lines 77-149).
The branch on keyword containment is an if/elif chain over the lowercased
instruction; each branch then attempts its regex extraction.  A branch whose
keywords matched but whose extraction failed performs no edit and produces
no output at all (`silent` below) - execution does not move on to a later
branch, and the block-listing fallback (`unrecognized`) is only reached when
no branch's keyword test succeeds.
-/

/-- Outcome of interpreting one instruction.  `titleChange x` is the
best-effort title branch (line 118): the code's replacement target there is
the literal string "Title" (line 122).  `silent` is a branch whose keywords
matched but whose pattern extraction failed: nothing happens. -/
inductive EditResult where
  | replace (old new : Str)
  | change (old new : Str)
  | titleChange (new : Str)
  | updateDate (new : Str)
  | silent
  | unrecognized
deriving DecidableEq, Repr

/-- Branch 1 (lines 90-102): quoted replace pair. -/
def rule1 (lo : Str) : EditResult :=
  match r1Search lo with
  | some (a, b) => .replace a b
  | none => .silent

/-- Branch 2 (lines 104-125): change pair, else title fallback. -/
def rule2 (lo : Str) : EditResult :=
  match r2Search lo with
  | some (a, b) => .change (pyStrip a) (pyStrip b)
  | none =>
    match rtSearch lo with
    | some x => .titleChange x
    | none => .silent

/-- Branch 3 (lines 127-133): date update. -/
def rule3 (lo : Str) : EditResult :=
  match rdSearch lo with
  | some x => .updateDate x
  | none => .silent

/-- The interpreter: lowercase the instruction (line 78), then the
if/elif chain on substring containment (lines 90, 104, 127, 135). -/
def interpret (instr : Str) : EditResult :=
  let lo := pyLower instr
  if containsSub lo (str "replace") && containsSub lo (str "with") then rule1 lo
  else if containsSub lo (str "change") && containsSub lo (str "to") then rule2 lo
  else if containsSub lo (str "update") && containsSub lo (str "date") then rule3 lo
  else .unrecognized

/-- The `old_text` a result carries (the text searched for on the page);
the title branch searches for the literal "Title". -/
def EditResult.oldText : EditResult → Option Str
  | .replace a _ => some a
  | .change a _ => some a
  | .titleChange _ => some (str "Title")
  | _ => none

/-- The `new_text` a result carries. -/
def EditResult.newText : EditResult → Option Str
  | .replace _ b => some b
  | .change _ b => some b
  | .titleChange x => some x
  | .updateDate x => some x
  | _ => none

/-- The spec's `ParsedEdit.kind` of a result ("silent" has no counterpart
in the spec: it is the branch that extracts nothing and does nothing). -/
def EditResult.kindName : EditResult → Str
  | .replace _ _ => str "replace"
  | .change _ _ => str "change"
  | .titleChange _ => str "change"
  | .updateDate _ => str "update-date"
  | .silent => str "silent"
  | .unrecognized => str "unrecognized"

/-!
The unrecognized fallback (lines 140-149): `page.get_text("blocks")`
returns tuples whose index 4 is the text and index 6 the block type
(0 = text).  The code lists `blocks[:10]`, keeps type-0 blocks, and prints
`block[4][:100]` for each.
-/

/-- One extracted page block: its text (tuple index 4) and type
(tuple index 6, 0 for a text block). -/
structure PageBlock where
  btext : Str
  btype : Nat
deriving DecidableEq, Repr

/-- The texts presented on the unrecognized path: first 10 blocks,
text blocks only, each truncated to 100 characters. -/
def listedBlocks (blocks : List PageBlock) : List Str :=
  ((blocks.take 10).filter (fun b => b.btype == 0)).map (fun b => b.btext.take 100)

/-!
Python `int(...)` on strings (ASCII fragment): surrounding whitespace is
ignored, an optional sign precedes the digits, and single underscores may
separate digits.
-/

/-- Decimal digit value. -/
def digitVal (c : Char) : Option Nat :=
  if 48 ≤ c.toNat ∧ c.toNat ≤ 57 then some (c.toNat - 48) else none

/-- Digits continued: allows single underscores strictly between digits. -/
def digitsGo (acc : Nat) : Str → Option Nat
  | [] => some acc
  | c :: cs =>
    match digitVal c with
    | some d => digitsGo (acc * 10 + d) cs
    | none =>
      if c = '_' then
        match cs with
        | [] => none
        | d :: ds =>
          match digitVal d with
          | some dv => digitsGo (acc * 10 + dv) ds
          | none => none
      else none

/-- A nonempty digit run (with internal underscores). -/
def parseDigits : Str → Option Nat
  | [] => none
  | c :: cs =>
    match digitVal c with
    | some d => digitsGo d cs
    | none => none

/-- Python `int(s)` for decimal strings. -/
def pyInt (s : Str) : Option Int :=
  match pyStrip s with
  | [] => none
  | c :: cs =>
    if c = '+' then (parseDigits cs).map (fun n => (n : Int))
    else if c = '-' then (parseDigits cs).map (fun n => -(n : Int))
    else (parseDigits (c :: cs)).map (fun n => (n : Int))

/-!
Page-target resolution in nano-pdf.py `edit_pdf` (lines 37-51): the
specifier "all" is compared case-insensitively; otherwise `int(page)` is
attempted and the result validated against `0 <= n < total`; any failure
is a terminal error raised before `edit_with_pymupdf` runs, so no page is
edited and nothing is saved on that path.
-/

inductive PageErr where
  | outOfRange
  | invalidPage
deriving DecidableEq, Repr

/-- Which pages an edit invocation will touch (lines 40-51). -/
def parsePages (total : Nat) (page : Str) : Except PageErr (List Nat) :=
  if pyLower page = str "all" then .ok (List.range total)
  else
    match pyInt page with
    | some n =>
      if n < 0 ∨ (total : Int) ≤ n then .error .outOfRange else .ok [n.toNat]
    | none => .error .invalidPage

/-- Outcome of one `edit` invocation: the per-page interpretation results
produced (empty on the error path, where the run exits before editing),
and the terminal error if any. -/
structure RunResult where
  edited : List (Nat × EditResult)
  err : Option PageErr
deriving DecidableEq, Repr

/-- The `edit` command (lines 27-66 feeding lines 69-156): resolve the page
target, then interpret the instruction once per target page (pages at or
beyond the document length are skipped, line 81). -/
def editPdf (total : Nat) (page : Str) (instr : Str) : RunResult :=
  match parsePages total page with
  | .error e => { edited := [], err := some e }
  | .ok targets =>
    { edited := (targets.filter (fun i => i < total)).map (fun i => (i, interpret instr)),
      err := none }

/-!
The mock voice-call provider (voice_call.py, `MockProvider`, lines 35-90).
The calls dict is modelled as an insertion-ordered association list; the
fields of each call record that the claims observe are its status, its
optional duration, and the destination number.
-/

inductive CallStatus where
  | queued
  | inProgress
  | completed
deriving DecidableEq, Repr

/-- Position of a status along the queued - in-progress - completed chain. -/
def statusRank : CallStatus → Nat
  | .queued => 0
  | .inProgress => 1
  | .completed => 2

structure CallData where
  status : CallStatus
  duration : Option Nat
  toNum : Str
deriving DecidableEq, Repr

/-- The provider's `self.calls` dict. -/
abbrev MockState := List (Str × CallData)

/-- Dict lookup `self.calls[call_id]` / `call_id in self.calls`. -/
def lookupCall : MockState → Str → Option CallData
  | [], _ => none
  | (k, v) :: rest, cid => if k = cid then some v else lookupCall rest cid

/-- Dict assignment `self.calls[call_id] = data` (overwrite or append). -/
def setCall : MockState → Str → CallData → MockState
  | [], cid, c => [(cid, c)]
  | (k, v) :: rest, cid, c =>
    if k = cid then (k, c) :: rest else (k, v) :: setCall rest cid c

/-- Responses the mock provider returns. -/
inductive MockResp where
  | err (msg : Str)
  | statusResp (c : CallData)
  | ok (cid : Str) (status : CallStatus)
deriving DecidableEq, Repr

/-- One `get_status` progression step (lines 70-74): queued to in-progress,
in-progress to completed with a 30 second duration, completed unchanged. -/
def stepStatus (c : CallData) : CallData :=
  match c.status with
  | .queued => { c with status := .inProgress }
  | .inProgress => { c with status := .completed, duration := some 30 }
  | .completed => c

/-- `MockProvider.get_status` (lines 64-82). -/
def getStatus (st : MockState) (cid : Str) : MockState × MockResp :=
  match lookupCall st cid with
  | none => (st, .err (str "Call " ++ cid ++ str " not found"))
  | some c =>
    let c2 := stepStatus c
    (setCall st cid c2, .statusResp c2)

/-- `MockProvider.hangup` (lines 84-90). -/
def hangup (st : MockState) (cid : Str) : MockState × MockResp :=
  match lookupCall st cid with
  | none => (st, .err (str "Call " ++ cid ++ str " not found"))
  | some c =>
    (setCall st cid { c with status := .completed }, .ok cid .completed)

/-- `MockProvider.initiate_call` (lines 42-62): the call id is derived
from the current timestamp, and the record is stored with status queued
(overwriting any existing record under the same id). -/
def initiateCall (st : MockState) (now : Str) (toNum : Str) : MockState × MockResp :=
  let cid := str "MOCK_" ++ now
  (setCall st cid { status := .queued, duration := none, toNum := toNum },
   .ok cid .queued)

/-!
Page extraction (edit_pdf.py, `extract_pages`, lines 104-132): the range
string is split on commas; a part containing a hyphen must split into
exactly two integers `a-b` and contributes the 1-based range `a..b`
(0-based `a-1..b-1`); other parts contribute one page.  Any parse failure
is caught and reported as failure; parsed page numbers outside the
document are silently dropped by the `0 <= i < len(reader.pages)` filter
and the operation still succeeds.
-/

/-- Python `s.split(sep)` for a one-character separator (keeps empties). -/
def splitOn (sep : Char) : Str → List Str
  | [] => [[]]
  | c :: cs =>
    let r := splitOn sep cs
    if c = sep then [] :: r
    else
      match r with
      | h :: t => (c :: h) :: t
      | [] => [[c]]

/-- Python `range(a, b)` over integers. -/
def rangeInt (a b : Int) : List Int :=
  (List.range (b - a).toNat).map (fun k => a + (k : Int))

/-- One comma-separated part of the range string (lines 115-119). -/
def parsePart (part : Str) : Option (List Int) :=
  if part.contains '-' then
    match splitOn '-' part with
    | [a, b] =>
      match pyInt a, pyInt b with
      | some x, some y => some (rangeInt (x - 1) y)
      | _, _ => none
    | _ => none
  else
    (pyInt part).map (fun p => [p - 1])

/-- All requested 0-based page numbers, in order (line 113-119). -/
def parsePageNums (pages : Str) : Option (List Int) :=
  (splitOn ',' pages).foldr
    (fun part acc =>
      match parsePart part, acc with
      | some xs, some rest => some (xs ++ rest)
      | _, _ => none)
    (some [])

/-- `extract_pages`: `none` models the caught-exception failure path
(returns False); `some out` is success, with `out` the 0-based pages
written to the output document in order (lines 121-129). -/
def extractPages (total : Nat) (pages : Str) : Option (List Nat) :=
  (parsePageNums pages).map
    (fun nums =>
      (nums.filter (fun i => decide (0 ≤ i) && decide (i < (total : Int)))).map Int.toNat)

/-!
Concrete example instructions (quote characters spelled via `sqCh`).
-/

/-- The spec's own example: change quoted Draft to quoted Final. -/
def exDraft : Str :=
  str "change " ++ [sqCh] ++ str "Draft" ++ [sqCh] ++ str " to " ++
  [sqCh] ++ str "Final" ++ [sqCh]

/-- Mixed-case keywords with a quoted pair. -/
def exRep : Str :=
  str "REPLACE " ++ [sqCh] ++ str "A B" ++ [sqCh] ++ str " With " ++
  [sqCh] ++ str "C" ++ [sqCh]

/-- Contains "replace" and "with" but no quoted pair, while the
change pattern would match its tail. -/
def exFall : Str :=
  str "replace x with y, change " ++ [sqCh] ++ str "a" ++ [sqCh] ++
  str " to " ++ [sqCh] ++ str "b" ++ [sqCh]

/-- A quoted span consisting of a single space. -/
def exSpace : Str :=
  str "change " ++ [sqCh] ++ str " " ++ [sqCh] ++ str " to " ++
  [sqCh] ++ str "x" ++ [sqCh]

/-- The spec's date example, with capitalised March. -/
def exDate : Str :=
  str "update the date to " ++ [sqCh] ++ str "March 2024" ++ [sqCh]

/-- A title instruction the pair pattern cannot match (trailing text
defeats its end anchor) but the title pattern can. -/
def exTitle : Str :=
  str "change the title to " ++ [sqCh] ++ str "New Title" ++ [sqCh] ++
  str " please"

/-- The spec's unrecognized example. -/
def exNice : Str := str "please make it nicer"

/-- A mock-provider state holding one completed call. -/
def exState : MockState :=
  [(str "MOCK_20250101120000",
    { status := .completed, duration := some 30, toNum := str "+15555550123" })]

/-!
Helper lemmas.
-/

theorem r1At_ne (s a b : Str) (h : r1At s = some (a, b)) : a ≠ [] ∧ b ≠ [] := by
  simp only [r1At] at h
  repeat' split at h
  all_goals simp_all

theorem r1Search_ne : ∀ (s : Str) (a b : Str), r1Search s = some (a, b) → a ≠ [] ∧ b ≠ [] := by
  intro s
  induction s with
  | nil => intro a b h; simp [r1Search] at h
  | cons c cs ih =>
    intro a b h
    simp only [r1Search] at h
    split at h
    next r heq =>
      injection h with h2
      subst h2
      exact r1At_ne _ _ _ heq
    next => exact ih a b h

theorem rtTail_ne (s x : Str) (h : rtTail s = some x) : x ≠ [] := by
  simp only [rtTail] at h
  repeat' split at h
  all_goals simp_all

theorem rtAt_ne (s x : Str) (h : rtAt s = some x) : x ≠ [] := by
  simp only [rtAt] at h
  split at h
  · simp_all
  · rcases (Option.orElse_eq_some' _ _ _).mp h with h' | ⟨_, h'⟩
    · split at h'
      · exact rtTail_ne _ _ h'
      · simp_all
    · exact rtTail_ne _ _ h'

theorem rtSearch_ne : ∀ (s x : Str), rtSearch s = some x → x ≠ [] := by
  intro s
  induction s with
  | nil => intro x h; simp [rtSearch] at h
  | cons c cs ih =>
    intro x h
    simp only [rtSearch] at h
    split at h
    next r heq =>
      injection h with h2
      subst h2
      exact rtAt_ne _ _ heq
    next => exact ih x h

theorem interpret_eq_rule1 (s : Str)
    (h1 : containsSub (pyLower s) (str "replace") = true)
    (h2 : containsSub (pyLower s) (str "with") = true) :
    interpret s = rule1 (pyLower s) := by
  simp [interpret, h1, h2]

theorem interpret_eq_rule2 (s : Str)
    (h0 : (containsSub (pyLower s) (str "replace") &&
           containsSub (pyLower s) (str "with")) = false)
    (h1 : containsSub (pyLower s) (str "change") = true)
    (h2 : containsSub (pyLower s) (str "to") = true) :
    interpret s = rule2 (pyLower s) := by
  simp [interpret, h0, h1, h2]

theorem interpret_eq_rule3 (s : Str)
    (h0 : (containsSub (pyLower s) (str "replace") &&
           containsSub (pyLower s) (str "with")) = false)
    (h1 : (containsSub (pyLower s) (str "change") &&
           containsSub (pyLower s) (str "to")) = false)
    (h2 : containsSub (pyLower s) (str "update") = true)
    (h3 : containsSub (pyLower s) (str "date") = true) :
    interpret s = rule3 (pyLower s) := by
  simp [interpret, h0, h1, h2, h3]

theorem interpret_replace_inv (s a b : Str) (h : interpret s = .replace a b) :
    r1Search (pyLower s) = some (a, b) := by
  simp only [interpret] at h
  split_ifs at h
  · cases hr : r1Search (pyLower s) with
    | none => simp [rule1, hr] at h
    | some p =>
      obtain ⟨x, y⟩ := p
      simp [rule1, hr] at h
      rw [h.1, h.2]
  · exfalso
    cases hr : r2Search (pyLower s) with
    | some p => obtain ⟨x, y⟩ := p; simp [rule2, hr] at h
    | none =>
      cases ht : rtSearch (pyLower s) with
      | some x => simp [rule2, hr, ht] at h
      | none => simp [rule2, hr, ht] at h
  · exfalso
    cases hd : rdSearch (pyLower s) with
    | some x => simp [rule3, hd] at h
    | none => simp [rule3, hd] at h

theorem interpret_change_inv (s a b : Str) (h : interpret s = .change a b) :
    ∃ a0 b0, r2Search (pyLower s) = some (a0, b0) ∧ a = pyStrip a0 ∧ b = pyStrip b0 := by
  simp only [interpret] at h
  split_ifs at h
  · exfalso
    cases hr : r1Search (pyLower s) with
    | some p => obtain ⟨x, y⟩ := p; simp [rule1, hr] at h
    | none => simp [rule1, hr] at h
  · cases hr : r2Search (pyLower s) with
    | some p =>
      obtain ⟨x, y⟩ := p
      simp [rule2, hr] at h
      exact ⟨x, y, rfl, h.1.symm, h.2.symm⟩
    | none =>
      exfalso
      cases ht : rtSearch (pyLower s) with
      | some x => simp [rule2, hr, ht] at h
      | none => simp [rule2, hr, ht] at h
  · exfalso
    cases hd : rdSearch (pyLower s) with
    | some x => simp [rule3, hd] at h
    | none => simp [rule3, hd] at h

theorem interpret_title_inv (s x : Str) (h : interpret s = .titleChange x) :
    r2Search (pyLower s) = none ∧ rtSearch (pyLower s) = some x := by
  simp only [interpret] at h
  split_ifs at h
  · exfalso
    cases hr : r1Search (pyLower s) with
    | some p => obtain ⟨u, v⟩ := p; simp [rule1, hr] at h
    | none => simp [rule1, hr] at h
  · cases hr : r2Search (pyLower s) with
    | some p => obtain ⟨u, v⟩ := p; exfalso; simp [rule2, hr] at h
    | none =>
      cases ht : rtSearch (pyLower s) with
      | some y =>
        simp [rule2, hr, ht] at h
        exact ⟨rfl, by rw [h]⟩
      | none => exfalso; simp [rule2, hr, ht] at h
  · exfalso
    cases hd : rdSearch (pyLower s) with
    | some y => simp [rule3, hd] at h
    | none => simp [rule3, hd] at h

theorem lookup_setCall_self : ∀ (st : MockState) (cid : Str) (c : CallData),
    lookupCall (setCall st cid c) cid = some c := by
  intro st cid c
  induction st with
  | nil => simp [setCall, lookupCall]
  | cons kv rest ih =>
    obtain ⟨k, v⟩ := kv
    by_cases hk : k = cid
    · simp [setCall, lookupCall, hk]
    · simp [setCall, lookupCall, hk, ih]

theorem statusRank_step_mono (c : CallData) :
    statusRank c.status ≤ statusRank (stepStatus c).status := by
  obtain ⟨st0, du, tn⟩ := c
  cases st0 <;> simp [stepStatus, statusRank]

/-!
Claim theorems.
-/

/-- Claim C1, counterexample: the interpreter matches the regex against the
lowercased instruction, so the captured spans of
`change 'Draft' to 'Final'` are `draft` and `final`, not the original
casing `Draft`/`Final` the claim requires. -/
theorem C1_counterexample :
    interpret exDraft = .change (str "draft") (str "final") ∧
    (interpret exDraft).oldText = some (str "draft") ∧
    str "draft" ≠ str "Draft" ∧ str "final" ≠ str "Final" := by
  decide

/-- Claim C1, amended: keyword matching is case-insensitive (the whole
instruction is lowercased first), and whenever the quoted replace pattern
matches the lowercased instruction the interpreter succeeds with exactly
the captured spans - which are taken from the lowercased text, so casing
inside the quotes is lowercased rather than preserved.  The concrete
conjunct shows mixed-case keywords succeeding with lowercased captures. -/
theorem C1_amended :
    (∀ s a b, containsSub (pyLower s) (str "replace") = true →
      containsSub (pyLower s) (str "with") = true →
      r1Search (pyLower s) = some (a, b) →
      interpret s = .replace a b) ∧
    interpret exRep = .replace (str "a b") (str "c") := by
  constructor
  · intro s a b h1 h2 h3
    rw [interpret_eq_rule1 s h1 h2]
    simp [rule1, h3]
  · decide

/-- Witness for C1_amended at the mixed-case example. -/
theorem C1_witness : interpret exRep = .replace (str "a b") (str "c") :=
  C1_amended.1 exRep (str "a b") (str "c") (by decide) (by decide) (by decide)

/-- Claim C2, counterexample: `exFall` contains both "replace" and "with"
and fails the quoted-pair pattern, and the change pattern would match its
tail, yet the interpreter produces the silent no-op: it neither falls
through to the change rule nor reaches the unrecognized fallback. -/
theorem C2_counterexample :
    containsSub (pyLower exFall) (str "replace") = true ∧
    containsSub (pyLower exFall) (str "with") = true ∧
    r1Search (pyLower exFall) = none ∧
    r2Search (pyLower exFall) = some (str "a", str "b") ∧
    interpret exFall = .silent ∧
    (interpret exFall).kindName ≠ str "change" ∧
    (interpret exFall).kindName ≠ str "update-date" ∧
    (interpret exFall).kindName ≠ str "unrecognized" := by
  decide

/-- Claim C2, amended: an instruction containing both "replace" and "with"
whose quoted-pair extraction fails is a silent no-op - no edit, no
fall-through to the change or update-date rules, no unrecognized
block-listing, and (being a total function) no raised error. -/
theorem C2_amended :
    ∀ s, containsSub (pyLower s) (str "replace") = true →
      containsSub (pyLower s) (str "with") = true →
      r1Search (pyLower s) = none →
      interpret s = .silent := by
  intro s h1 h2 h3
  rw [interpret_eq_rule1 s h1 h2]
  simp [rule1, h3]

/-- Witness for C2_amended at the fall-through example. -/
theorem C2_witness : interpret exFall = .silent :=
  C2_amended exFall (by decide) (by decide) (by decide)

/-- Claim C3, counterexample: `change ' ' to 'x'` produces a result of
kind change whose old_text is empty (the quoted span was all whitespace
and the code strips it), violating the non-emptiness invariant. -/
theorem C3_counterexample :
    interpret exSpace = .change [] (str "x") ∧
    (interpret exSpace).kindName = str "change" ∧
    (interpret exSpace).oldText = some [] := by
  decide

/-- Claim C3, amended: a replace result always carries non-empty old_text
and new_text; a change result carries the whitespace-stripped captured
spans, which are empty exactly when a quoted span was all whitespace; a
title result carries non-empty new_text and old_text "Title"; an
unrecognized result carries neither field. -/
theorem C3_amended :
    (∀ s a b, interpret s = .replace a b → a ≠ [] ∧ b ≠ []) ∧
    (∀ s a b, interpret s = .change a b →
      ∃ a0 b0, r2Search (pyLower s) = some (a0, b0) ∧
        a = pyStrip a0 ∧ b = pyStrip b0) ∧
    (∀ s x, interpret s = .titleChange x →
      x ≠ [] ∧ (EditResult.titleChange x).oldText = some (str "Title")) ∧
    EditResult.unrecognized.oldText = none ∧
    EditResult.unrecognized.newText = none := by
  refine ⟨?_, ?_, ?_, rfl, rfl⟩
  · intro s a b h
    exact r1Search_ne _ _ _ (interpret_replace_inv s a b h)
  · intro s a b h
    exact interpret_change_inv s a b h
  · intro s x h
    exact ⟨rtSearch_ne _ _ (interpret_title_inv s x h).2, rfl⟩

/-- Witness for C3_amended: the replace clause at the concrete example. -/
theorem C3_witness : str "a b" ≠ [] ∧ str "c" ≠ [] :=
  C3_amended.1 exRep (str "a b") (str "c") (by decide)

/-- Claim C4: the branch order is fixed and keyed on keyword containment.
An instruction containing both "replace" and "with" is handled by rule 1
only (its outcome is a replace edit or the silent no-op - never change,
update-date or unrecognized); one containing "change" and "to" but not
the rule 1 keywords is handled by rule 2 only (change, title or silent -
never update-date or unrecognized). -/
theorem C4_rule_priority :
    (∀ s, (containsSub (pyLower s) (str "replace") &&
           containsSub (pyLower s) (str "with")) = true →
      interpret s = .silent ∨ ∃ a b, interpret s = .replace a b) ∧
    (∀ s, (containsSub (pyLower s) (str "replace") &&
           containsSub (pyLower s) (str "with")) = false →
      (containsSub (pyLower s) (str "change") &&
       containsSub (pyLower s) (str "to")) = true →
      interpret s = .silent ∨ (∃ a b, interpret s = .change a b) ∨
        ∃ x, interpret s = .titleChange x) := by
  constructor
  · intro s h
    obtain ⟨h1, h2⟩ := Bool.and_eq_true _ _ |>.mp h
    rw [interpret_eq_rule1 s h1 h2]
    cases hr : r1Search (pyLower s) with
    | none => exact Or.inl (by simp [rule1, hr])
    | some p => exact Or.inr ⟨p.1, p.2, by simp [rule1, hr]⟩
  · intro s h0 h
    obtain ⟨h1, h2⟩ := Bool.and_eq_true _ _ |>.mp h
    rw [interpret_eq_rule2 s h0 h1 h2]
    cases hr : r2Search (pyLower s) with
    | some p => exact Or.inr (Or.inl ⟨pyStrip p.1, pyStrip p.2, by simp [rule2, hr]⟩)
    | none =>
      cases ht : rtSearch (pyLower s) with
      | some x => exact Or.inr (Or.inr ⟨x, by simp [rule2, hr, ht]⟩)
      | none => exact Or.inl (by simp [rule2, hr, ht])

/-- Witness for C4_rule_priority at the quoted replace example. -/
theorem C4_witness :
    interpret exRep = .silent ∨ ∃ a b, interpret exRep = .replace a b :=
  C4_rule_priority.1 exRep (by decide)

/-- Claim C5, counterexample: `update the date to 'March 2024'` yields
new_text `march 2024` (captured from the lowercased instruction), not
`March 2024` as the claim states. -/
theorem C5_counterexample :
    interpret exDate = .updateDate (str "march 2024") ∧
    (interpret exDate).newText = some (str "march 2024") ∧
    some (str "march 2024") ≠ some (str "March 2024") ∧
    (interpret exDate).oldText = none := by
  decide

/-- Claim C5, amended: when neither earlier rule's keywords match, the
instruction contains "update" and "date", and the date pattern matches
the lowercased instruction with span x, the result is update-date with
new_text x (the lowercased span) and no old_text. -/
theorem C5_amended :
    (∀ s x, (containsSub (pyLower s) (str "replace") &&
             containsSub (pyLower s) (str "with")) = false →
      (containsSub (pyLower s) (str "change") &&
       containsSub (pyLower s) (str "to")) = false →
      containsSub (pyLower s) (str "update") = true →
      containsSub (pyLower s) (str "date") = true →
      rdSearch (pyLower s) = some x →
      interpret s = .updateDate x ∧ (EditResult.updateDate x).oldText = none) ∧
    interpret exDate = .updateDate (str "march 2024") := by
  constructor
  · intro s x h0 h1 h2 h3 h4
    rw [interpret_eq_rule3 s h0 h1 h2 h3]
    exact ⟨by simp [rule3, h4], rfl⟩
  · decide

/-- Witness for C5_amended at the date example. -/
theorem C5_witness :
    interpret exDate = .updateDate (str "march 2024") ∧
    (EditResult.updateDate (str "march 2024")).oldText = none :=
  C5_amended.1 exDate (str "march 2024") (by decide) (by decide) (by decide)
    (by decide) (by decide)

/-- Claim C6, counterexample: `change the title to 'New Title' please`
takes the title branch, but the produced new_text is the lowercased
`new title`, not the original span `New Title` the claim requires. -/
theorem C6_counterexample :
    interpret exTitle = .titleChange (str "new title") ∧
    (interpret exTitle).newText = some (str "new title") ∧
    some (str "new title") ≠ some (str "New Title") ∧
    (interpret exTitle).oldText = some (str "Title") := by
  decide

/-- Claim C6, amended: when the change rule is selected, the pair pattern
fails and the title pattern matches the lowercased instruction with span
x, the result is the title change: kind change, old_text exactly "Title",
new_text x (the lowercased span). -/
theorem C6_amended :
    ∀ s x, (containsSub (pyLower s) (str "replace") &&
            containsSub (pyLower s) (str "with")) = false →
      (containsSub (pyLower s) (str "change") &&
       containsSub (pyLower s) (str "to")) = true →
      r2Search (pyLower s) = none →
      rtSearch (pyLower s) = some x →
      interpret s = .titleChange x ∧
      (EditResult.titleChange x).oldText = some (str "Title") ∧
      (EditResult.titleChange x).kindName = str "change" := by
  intro s x h0 h hr ht
  obtain ⟨h1, h2⟩ := Bool.and_eq_true _ _ |>.mp h
  rw [interpret_eq_rule2 s h0 h1 h2]
  exact ⟨by simp [rule2, hr, ht], rfl, rfl⟩

/-- Witness for C6_amended at the title example. -/
theorem C6_witness :
    interpret exTitle = .titleChange (str "new title") ∧
    (EditResult.titleChange (str "new title")).oldText = some (str "Title") ∧
    (EditResult.titleChange (str "new title")).kindName = str "change" :=
  C6_amended exTitle (str "new title") (by decide) (by decide) (by decide)
    (by decide)

/-- Claim C7: on the unrecognized path the caller lists at most 10 blocks,
the listed texts are a prefix of the page's text blocks in on-page order
(each text truncated to 100 characters), and every listed text has length
at most 100. -/
theorem C7_unrecognized_listing :
    ∀ (s : Str) (blocks : List PageBlock), interpret s = .unrecognized →
      (listedBlocks blocks).length ≤ 10 ∧
      listedBlocks blocks <+:
        (blocks.filter (fun b => b.btype == 0)).map (fun b => b.btext.take 100) ∧
      ∀ t ∈ listedBlocks blocks, t.length ≤ 100 := by
  intro s blocks _
  refine ⟨?_, ?_, ?_⟩
  · simp only [listedBlocks, List.length_map]
    exact le_trans (List.length_filter_le _ _) (List.length_take_le _ _)
  · exact List.IsPrefix.map _ (List.IsPrefix.filter _ (List.take_prefix 10 blocks))
  · intro t ht
    simp only [listedBlocks, List.mem_map] at ht
    obtain ⟨bb, _, rfl⟩ := ht
    exact List.length_take_le _ _

/-- Witness for C7_unrecognized_listing at the unrecognized example. -/
theorem C7_witness :
    (listedBlocks [⟨str "block one", 0⟩, ⟨str "figure", 1⟩]).length ≤ 10 ∧
    listedBlocks [⟨str "block one", 0⟩, ⟨str "figure", 1⟩] <+:
      (([⟨str "block one", 0⟩, ⟨str "figure", 1⟩] : List PageBlock).filter
        (fun b => b.btype == 0)).map (fun b => b.btext.take 100) ∧
    ∀ t ∈ listedBlocks [⟨str "block one", 0⟩, ⟨str "figure", 1⟩], t.length ≤ 100 :=
  C7_unrecognized_listing exNice [⟨str "block one", 0⟩, ⟨str "figure", 1⟩]
    (by decide)

/-- Claim C8, counterexample: the page specifier "ALL" is neither the
literal "all" nor numeric, yet the run proceeds without error and edits
every page, because the code lowercases the specifier before comparing. -/
theorem C8_counterexample :
    (editPdf 3 (str "ALL") exNice).err = none ∧
    (editPdf 3 (str "ALL") exNice).edited =
      [(0, .unrecognized), (1, .unrecognized), (2, .unrecognized)] ∧
    str "ALL" ≠ str "all" ∧ pyInt (str "ALL") = none := by
  decide

/-- Claim C8, amended: if the page specifier is neither case-insensitively
"all" nor an integer within the page range, the run terminates with an
error and no page is edited. -/
theorem C8_amended :
    ∀ (total : Nat) (page instr : Str), pyLower page ≠ str "all" →
      (pyInt page = none ∨ ∃ n, pyInt page = some n ∧ (n < 0 ∨ (total : Int) ≤ n)) →
      ∃ e, (editPdf total page instr).err = some e ∧
        (editPdf total page instr).edited = [] := by
  intro total page instr hall hnum
  have hp : ∃ e, parsePages total page = .error e := by
    unfold parsePages
    rw [if_neg hall]
    rcases hnum with hn | ⟨n, hn, hb⟩
    · rw [hn]
      exact ⟨.invalidPage, rfl⟩
    · rw [hn]
      simp only [if_pos hb]
      exact ⟨.outOfRange, rfl⟩
  obtain ⟨e, he⟩ := hp
  exact ⟨e, by simp [editPdf, he]⟩

/-- Witness for C8_amended: page "7" of a 3-page document. -/
theorem C8_witness :
    ∃ e, (editPdf 3 (str "7") exNice).err = some e ∧
      (editPdf 3 (str "7") exNice).edited = [] :=
  C8_amended 3 (str "7") exNice (by decide)
    (Or.inr ⟨7, by decide, Or.inr (by decide)⟩)

/-- Claim C9, counterexample: initiate_call derives the id from the
current timestamp, so a call initiated in the same second as an existing
completed call overwrites it with a fresh queued record - an operation
that moves a completed call's stored status backwards. -/
theorem C9_counterexample :
    lookupCall exState (str "MOCK_20250101120000") =
      some { status := .completed, duration := some 30,
             toNum := str "+15555550123" } ∧
    lookupCall (initiateCall exState (str "20250101120000")
        (str "+15555550199")).1 (str "MOCK_20250101120000") =
      some { status := .queued, duration := none,
             toNum := str "+15555550199" } ∧
    statusRank .queued < statusRank .completed := by
  decide

/-- Claim C9, amended: get_status on a known call advances its status one
step along queued, in-progress, completed (never backwards), attaching a
30-second duration on reaching completed and leaving completed calls
unchanged; hangup on a known call sets it to completed; on unknown ids
both return an error value and leave the state untouched.  (initiate_call
may still reset an existing record when its timestamp-derived id
collides, as the counterexample shows.) -/
theorem C9_amended :
    (∀ (st : MockState) (cid : Str) (c : CallData), lookupCall st cid = some c →
      lookupCall (getStatus st cid).1 cid = some (stepStatus c) ∧
      statusRank c.status ≤ statusRank (stepStatus c).status ∧
      (c.status = .queued → (stepStatus c).status = .inProgress) ∧
      (c.status = .inProgress →
        (stepStatus c).status = .completed ∧ (stepStatus c).duration = some 30) ∧
      (c.status = .completed → stepStatus c = c)) ∧
    (∀ (st : MockState) (cid : Str) (c : CallData), lookupCall st cid = some c →
      lookupCall (hangup st cid).1 cid = some { c with status := .completed } ∧
      statusRank c.status ≤ statusRank CallStatus.completed) ∧
    (∀ (st : MockState) (cid : Str), lookupCall st cid = none →
      getStatus st cid = (st, .err (str "Call " ++ cid ++ str " not found")) ∧
      hangup st cid = (st, .err (str "Call " ++ cid ++ str " not found"))) := by
  refine ⟨?_, ?_, ?_⟩
  · intro st cid c h
    refine ⟨?_, statusRank_step_mono c, ?_, ?_, ?_⟩
    · simp only [getStatus, h]
      exact lookup_setCall_self st cid (stepStatus c)
    · intro hq; simp [stepStatus, hq]
    · intro hq; simp [stepStatus, hq]
    · intro hq; simp [stepStatus, hq]
  · intro st cid c h
    refine ⟨?_, ?_⟩
    · simp only [hangup, h]
      exact lookup_setCall_self st cid { c with status := .completed }
    · rcases c with ⟨s0, d0, t0⟩
      cases s0 <;> simp [statusRank]
  · intro st cid h
    exact ⟨by simp [getStatus, h], by simp [hangup, h]⟩

/-- Witness for C9_amended: get_status on the stored completed call leaves
it completed. -/
theorem C9_witness :
    lookupCall (getStatus exState (str "MOCK_20250101120000")).1
      (str "MOCK_20250101120000") =
      some { status := CallStatus.completed, duration := some 30,
             toNum := str "+15555550123" } := by
  have h := C9_amended.1 exState (str "MOCK_20250101120000")
    { status := .completed, duration := some 30, toNum := str "+15555550123" }
    (by decide)
  exact h.1.trans (by decide)

/-- Claim C10: for every page-range string that parses, extraction
succeeds, and the output is exactly the requested pages that exist in the
document, in the requested order (a sublist of the requested sequence),
out-of-range numbers being silently dropped. -/
theorem C10_extract_skips :
    ∀ (pages : Str) (total : Nat) (nums : List Int),
      parsePageNums pages = some nums →
      extractPages total pages =
        some ((nums.filter
          (fun i => decide (0 ≤ i) && decide (i < (total : Int)))).map Int.toNat) ∧
      List.Sublist
        (nums.filter (fun i => decide (0 ≤ i) && decide (i < (total : Int)))) nums ∧
      ∀ j ∈ nums.filter (fun i => decide (0 ≤ i) && decide (i < (total : Int))),
        0 ≤ j ∧ j < (total : Int) := by
  intro pages total nums h
  refine ⟨by simp [extractPages, h], List.filter_sublist nums, ?_⟩
  intro j hj
  have hcond := (List.mem_filter.mp hj).2
  simp only [Bool.and_eq_true, decide_eq_true_eq] at hcond
  exact hcond

/-- Witness for C10_extract_skips: "1-5,7,9-10" on a 4-page document
keeps pages 0-3 and silently drops the rest. -/
theorem C10_witness : extractPages 4 (str "1-5,7,9-10") = some [0, 1, 2, 3] := by
  have h := C10_extract_skips (str "1-5,7,9-10") 4 [0, 1, 2, 3, 4, 6, 8, 9]
    (by decide)
  exact h.1.trans (by decide)
